import Mathlib

/-
  Verification of the stream-tools repository: a shallow embedding of the
  OAuth credential manager (src/stream_tools/auth/oauth.py) and of the
  stream-health watch loop (src/stream_tools_cli/commands/streams.py),
  together with theorems settling the specification claims about them.
-/

namespace StreamTools

/- ===================== Health watch loop ===================== -/

/-- Kinds of notification the watch loop attempts to send via
send_notification (streams.py). Each constructor corresponds to one call
site inside the loop body: the first-failure warning, the budget-exhausted
final message, the restarted message, the recovered message, and the
restart-failed message. Delivery itself is an external collaborator. -/
inductive NotifKind where
  | failure
  | maxReached
  | restarted
  | recovered
  | restartFailed
  deriving Repr, DecidableEq, BEq

/-- Configuration of the watch command: the CLI options interval,
fail_interval, fail_count, restart_wait, restart_on_fail (after the
forcing at streams.py lines 352 to 356) and max_restarts. -/
structure WatchConfig where
  interval : Nat
  failInterval : Nat
  failCount : Nat
  restartWait : Nat
  restartOnFail : Bool
  maxRestarts : Nat
  deriving Repr, DecidableEq

/-- Mutable supervisory state of the loop: consecutive_failures,
total_restarts and notified_failure (streams.py lines 369 to 371). -/
structure WatchState where
  consecutiveFailures : Nat
  totalRestarts : Nat
  notifiedFailure : Bool
  deriving Repr, DecidableEq

/-- Outcome of one call to client.streams.get for health sampling: either a
stream whose health_status field is an optional status-string value, or a
StreamToolsError raised by the poller (the service layer wraps API errors
into StreamToolsError subclasses). -/
inductive FetchResult where
  | ok (healthStatus : Option String)
  | err
  deriving Repr, DecidableEq

/-- External nondeterminism consumed by one loop iteration: the health
fetch outcome, whether azura.restart_backend succeeds when invoked, and
the outcome of the post-restart health check. The last two fields are
only consulted on iterations that reach the corresponding call. -/
structure IterInput where
  fetch : FetchResult
  restartOk : Bool
  postFetch : FetchResult
  deriving Repr, DecidableEq

/-- Observable result of one loop iteration: the successor state, how many
times the restart actuator was invoked, the notifications attempted in
order, the sleeps performed in order, and whether the iteration terminated
the loop by raising typer.Exit(1). -/
structure StepOutput where
  state : WatchState
  restartCalls : Nat
  notifs : List NotifKind
  sleeps : List Nat
  exited : Bool
  deriving Repr, DecidableEq

/-- Health string of a fetched stream: stream.health_status.value if
health_status is set, else "noData" (streams.py line 462). -/
def healthValue (hs : Option String) : String := hs.getD "noData"

/-- Health classification of streams.py lines 466 to 474: "good" and "ok"
are healthy, every other value falls to the else branch. -/
def isHealthyStr (h : String) : Bool := h == "good" || h == "ok"

/-- Forcing of the restart flag before the loop starts (streams.py lines
352 to 356): restart_on_fail is turned off when the AzuraCast client is
not configured. -/
def effectiveRestartOnFail (flag : Bool) (azuraConfigured : Bool) : Bool :=
  flag && azuraConfigured

/-- One iteration of the while-True body of watch (streams.py lines 459 to
546), as a function of the current state and the iteration input. -/
def watchStep (cfg : WatchConfig) (s : WatchState) (inp : IterInput) : StepOutput :=
  match inp.fetch with
  | FetchResult.err =>
      { state := s, restartCalls := 0, notifs := [],
        sleeps := [cfg.failInterval], exited := false }
  | FetchResult.ok hs =>
      if isHealthyStr (healthValue hs) = true then
        { state := { s with consecutiveFailures := 0, notifiedFailure := false },
          restartCalls := 0, notifs := [], sleeps := [cfg.interval], exited := false }
      else
        let cf := s.consecutiveFailures + 1
        let notifs1 : List NotifKind :=
          if cf = 1 ∧ s.notifiedFailure = false then [NotifKind.failure] else []
        let notified1 : Bool :=
          if cf = 1 ∧ s.notifiedFailure = false then true else s.notifiedFailure
        if cfg.restartOnFail = true ∧ cfg.failCount ≤ cf then
          if cfg.maxRestarts ≤ s.totalRestarts then
            { state := { s with consecutiveFailures := cf, notifiedFailure := notified1 },
              restartCalls := 0, notifs := notifs1 ++ [NotifKind.maxReached],
              sleeps := [], exited := true }
          else if inp.restartOk = true then
            let s1 : WatchState :=
              { consecutiveFailures := 0, totalRestarts := s.totalRestarts + 1,
                notifiedFailure := false }
            match inp.postFetch with
            | FetchResult.err =>
                { state := s1, restartCalls := 1,
                  notifs := notifs1 ++ [NotifKind.restarted, NotifKind.restartFailed],
                  sleeps := [cfg.restartWait, cfg.failInterval], exited := false }
            | FetchResult.ok hs2 =>
                if isHealthyStr (healthValue hs2) = true then
                  { state := s1, restartCalls := 1,
                    notifs := notifs1 ++ [NotifKind.restarted, NotifKind.recovered],
                    sleeps := [cfg.restartWait], exited := false }
                else
                  { state := s1, restartCalls := 1,
                    notifs := notifs1 ++ [NotifKind.restarted],
                    sleeps := [cfg.restartWait], exited := false }
          else
            { state := { s with consecutiveFailures := cf, notifiedFailure := notified1 },
              restartCalls := 1, notifs := notifs1 ++ [NotifKind.restartFailed],
              sleeps := [cfg.failInterval], exited := false }
        else
          { state := { s with consecutiveFailures := cf, notifiedFailure := notified1 },
            restartCalls := 0, notifs := notifs1, sleeps := [cfg.failInterval],
            exited := false }

/-- Accumulated observation of a finite run of the loop. -/
structure RunOutput where
  state : WatchState
  restartCalls : Nat
  notifs : List NotifKind
  exited : Bool
  deriving Repr, DecidableEq

/-- Finite run of the watch loop over a list of iteration inputs, stopping
early when an iteration raises typer.Exit(1). -/
def watchRun (cfg : WatchConfig) (s : WatchState) : List IterInput → RunOutput
  | [] => { state := s, restartCalls := 0, notifs := [], exited := false }
  | inp :: rest =>
      let o := watchStep cfg s inp
      if o.exited = true then
        { state := o.state, restartCalls := o.restartCalls, notifs := o.notifs,
          exited := true }
      else
        let r := watchRun cfg o.state rest
        { state := r.state, restartCalls := o.restartCalls + r.restartCalls,
          notifs := o.notifs ++ r.notifs, exited := r.exited }

/- ===================== OAuth credential manager ===================== -/

/-- Credential held by the manager: the fields of
google.oauth2.credentials.Credentials that oauth.py reads and writes
(token, refresh_token, token_uri, client_id, client_secret, scopes),
plus the expired flag. The expiry computation lives in the external
google-auth collaborator library; following the spec, a Credential built
with access token unset must be refreshed before use, so such
constructions below carry expired set to true. -/
structure Credential where
  token : Option String
  refreshToken : Option String
  tokenUri : String
  clientId : String
  clientSecret : String
  scopes : List String
  expired : Bool
  deriving Repr, DecidableEq

/-- Errors raised by authentication code: AuthenticationError (the kind
swallowed by auto_authenticate between strategies) or any other
exception. -/
inductive AuthErr where
  | authError (msg : String)
  | otherError (msg : String)
  deriving Repr, DecidableEq

/-- The closed enum of authentication strategies
(stream_tools/auth/credentials.py). -/
inductive AuthMethod where
  | ENVIRONMENT
  | TOKEN_FILE
  | INTERACTIVE
  deriving Repr, DecidableEq

/-- Mutable state owned by the OAuthManager: the in-memory _credentials
slot and the contents of the token file at config.token_path (none when
the file does not exist; the file always holds one serialized
Credential when present). -/
structure AuthState where
  credentials : Option Credential
  tokenFile : Option Credential
  deriving Repr, DecidableEq

/-- Parsed installed-or-web section of client_secret.json as read by
_read_client_secret_file. -/
structure ClientSecretFile where
  clientId : Option String
  clientSecret : Option String
  deriving Repr, DecidableEq

/-- Read-only environment of the manager: the three environment
variables, the client-secret configuration file, the configured scopes,
and the outcomes of the two external exchanges (the refresh-token
exchange performed by Credentials.refresh, and the interactive browser
flow, whose argument records whether the consent prompt is forced). -/
structure AuthEnv where
  envClientId : Option String
  envClientSecret : Option String
  envRefreshToken : Option String
  clientSecretFile : Option ClientSecretFile
  scopes : List String
  refreshOutcome : Credential → Except String Credential
  interactiveOutcome : Bool → Except AuthErr Credential

/-- Python truthiness of an optional string environment value: None and
the empty string are falsy. -/
def optTruthy : Option String → Bool
  | none => false
  | some str => str != ""

/-- Result of one manager operation: the error raised, if any, and the
manager state after the operation (Python state mutations survive a
raised exception, so the state is reported on both paths). -/
structure OpResult where
  err : Option AuthErr
  state : AuthState
  deriving Repr, DecidableEq

/-- The _refresh_if_needed method (oauth.py lines 236 to 243): when a
Credential is set, is expired and has a truthy refresh token, perform the
refresh exchange; on exchange failure clear _credentials and raise an
AuthenticationError wrapping the cause. In every other case do nothing. -/
def refresh_if_needed (env : AuthEnv) (s : AuthState) : OpResult :=
  match s.credentials with
  | none => { err := none, state := s }
  | some cred =>
      if cred.expired = true ∧ optTruthy cred.refreshToken = true then
        match env.refreshOutcome cred with
        | Except.ok cred2 =>
            { err := none, state := { s with credentials := some cred2 } }
        | Except.error msg =>
            { err := some (AuthErr.authError ("Failed to refresh token: " ++ msg)),
              state := { s with credentials := none } }
      else { err := none, state := s }

/-- The _save_credentials method (oauth.py lines 245 to 258): a no-op when
no Credential is held, otherwise overwrite the token file with the
serialized current Credential. -/
def save_credentials (s : AuthState) : AuthState :=
  match s.credentials with
  | none => s
  | some cred => { s with tokenFile := some cred }

/-- Python `all([client_id, client_secret, refresh_token])` over the three
environment variables read by _authenticate_from_env. -/
def envVarsSet (env : AuthEnv) : Bool :=
  optTruthy env.envClientId && optTruthy env.envClientSecret
    && optTruthy env.envRefreshToken

/-- The _authenticate_from_env method (oauth.py lines 179 to 200): raise
when any of the three variables is missing; otherwise install a
Credential built from them with access token unset and refresh it. This
strategy never calls _save_credentials. -/
def authenticate_from_env (env : AuthEnv) (s : AuthState) : OpResult :=
  if envVarsSet env = true then
    let cred : Credential :=
      { token := none,
        refreshToken := env.envRefreshToken,
        tokenUri := "https://oauth2.googleapis.com/token",
        clientId := env.envClientId.getD "",
        clientSecret := env.envClientSecret.getD "",
        scopes := env.scopes,
        expired := true }
    refresh_if_needed env { s with credentials := some cred }
  else { err := some (AuthErr.authError "Environment variables not set"), state := s }

/-- The _authenticate_from_token_file method (oauth.py lines 202 to 212):
raise when the token file does not exist; otherwise install the
deserialized Credential, refresh it if needed, and on success re-save it
to the token file. -/
def authenticate_from_token_file (env : AuthEnv) (s : AuthState) : OpResult :=
  match s.tokenFile with
  | none => { err := some (AuthErr.authError "Token file not found"), state := s }
  | some cred =>
      let r := refresh_if_needed env { s with credentials := some cred }
      match r.err with
      | some e => { err := some e, state := r.state }
      | none => { err := none, state := save_credentials r.state }

/-- The _authenticate_interactive method (oauth.py lines 214 to 230):
raise when the client-secret file does not exist; otherwise run the
browser flow and, on success, install the obtained Credential and save it
to the token file. -/
def authenticate_interactive (env : AuthEnv) (s : AuthState) (forcePrompt : Bool) :
    OpResult :=
  match env.clientSecretFile with
  | none => { err := some (AuthErr.authError "Client secret file not found"), state := s }
  | some _ =>
      match env.interactiveOutcome forcePrompt with
      | Except.error e => { err := some e, state := s }
      | Except.ok cred =>
          { err := none, state := save_credentials { s with credentials := some cred } }

/-- The auto_authenticate method (oauth.py lines 54 to 80): try
ENVIRONMENT and swallow an AuthenticationError, then TOKEN_FILE and
swallow an AuthenticationError, then INTERACTIVE whose failure
propagates; return the method that succeeded. -/
def auto_authenticate (env : AuthEnv) (s : AuthState) :
    Except AuthErr AuthMethod × AuthState :=
  let r1 := authenticate_from_env env s
  match r1.err with
  | none => (Except.ok AuthMethod.ENVIRONMENT, r1.state)
  | some (AuthErr.authError _) =>
      let r2 := authenticate_from_token_file env r1.state
      match r2.err with
      | none => (Except.ok AuthMethod.TOKEN_FILE, r2.state)
      | some (AuthErr.authError _) =>
          let r3 := authenticate_interactive env r2.state false
          match r3.err with
          | none => (Except.ok AuthMethod.INTERACTIVE, r3.state)
          | some e => (Except.error e, r3.state)
      | some e => (Except.error e, r2.state)
  | some e => (Except.error e, r1.state)

/-- The _read_client_secret_file method (oauth.py lines 136 to 150): raise
when the file is absent, or when the installed-or-web section lacks a
truthy client_id or client_secret. -/
def read_client_secret_file (env : AuthEnv) : Except AuthErr (String × String) :=
  match env.clientSecretFile with
  | none => Except.error (AuthErr.authError "Client secret file not found")
  | some f =>
      if optTruthy f.clientId = true ∧ optTruthy f.clientSecret = true then
        Except.ok (f.clientId.getD "", f.clientSecret.getD "")
      else
        Except.error (AuthErr.authError "Invalid client secret file")

/-- The authenticate_with_token method (oauth.py lines 104 to 134): when
client id or secret is missing, read both from the client-secret file;
build a Credential from the supplied refresh token with access token
unset, refresh it, and save it to the token file on success. -/
def authenticate_with_token (env : AuthEnv) (s : AuthState)
    (refreshTok : String) (cid csec : Option String) : OpResult :=
  match (if optTruthy cid = true ∧ optTruthy csec = true then
           Except.ok (cid.getD "", csec.getD "")
         else read_client_secret_file env : Except AuthErr (String × String)) with
  | Except.error e => { err := some e, state := s }
  | Except.ok (id2, sec2) =>
      let cred : Credential :=
        { token := none,
          refreshToken := some refreshTok,
          tokenUri := "https://oauth2.googleapis.com/token",
          clientId := id2,
          clientSecret := sec2,
          scopes := env.scopes,
          expired := true }
      let r := refresh_if_needed env { s with credentials := some cred }
      match r.err with
      | some e => { err := some e, state := r.state }
      | none => { err := none, state := save_credentials r.state }

/- ===================== Concrete fixtures ===================== -/

/-- A concrete environment with no environment variables, no client-secret
file, a failing refresh exchange and a failing interactive flow. -/
def envNoRefresh : AuthEnv :=
  { envClientId := none, envClientSecret := none, envRefreshToken := none,
    clientSecretFile := none, scopes := [],
    refreshOutcome := fun _ => Except.error "network unreachable",
    interactiveOutcome := fun _ => Except.error (AuthErr.authError "no browser") }

/-- A concrete expired Credential carrying no refresh token. -/
def credExpiredNoRt : Credential :=
  { token := none, refreshToken := none,
    tokenUri := "https://oauth2.googleapis.com/token",
    clientId := "id", clientSecret := "sec", scopes := [], expired := true }

/-- A concrete manager state holding credExpiredNoRt and no token file. -/
def stateExpiredNoRt : AuthState :=
  { credentials := some credExpiredNoRt, tokenFile := none }

/-- A concrete expired Credential carrying a refresh token. -/
def credExpiredRt : Credential :=
  { token := none, refreshToken := some "rt",
    tokenUri := "https://oauth2.googleapis.com/token",
    clientId := "id", clientSecret := "sec", scopes := [], expired := true }

/-- A concrete fresh Credential as returned by a successful exchange or
browser flow. -/
def credFresh : Credential :=
  { token := some "tok", refreshToken := some "rt",
    tokenUri := "https://oauth2.googleapis.com/token",
    clientId := "id", clientSecret := "sec", scopes := [], expired := false }

/-- A concrete environment in which all three variables are set, the
client-secret file exists and both exchanges succeed. -/
def envAllSet : AuthEnv :=
  { envClientId := some "cid", envClientSecret := some "csec",
    envRefreshToken := some "crt",
    clientSecretFile := some { clientId := some "fid", clientSecret := some "fsec" },
    scopes := [],
    refreshOutcome := fun _ => Except.ok credFresh,
    interactiveOutcome := fun _ => Except.ok credFresh }

/-- A concrete environment in which only the interactive flow can
succeed: no variables, no token file will be found, but the client-secret
file exists and the browser flow returns credFresh. -/
def envInterOnly : AuthEnv :=
  { envClientId := none, envClientSecret := none, envRefreshToken := none,
    clientSecretFile := some { clientId := some "fid", clientSecret := some "fsec" },
    scopes := [],
    refreshOutcome := fun _ => Except.error "x",
    interactiveOutcome := fun _ => Except.ok credFresh }

/-- Default watch configuration of the CLI with restart enabled. -/
def cfgDefault : WatchConfig :=
  { interval := 300, failInterval := 30, failCount := 3, restartWait := 180,
    restartOnFail := true, maxRestarts := 10 }

/-- An iteration whose health fetch reads a bad sample and whose restart
actuator, if reached, succeeds with a good sample afterwards. -/
def iterBad : IterInput :=
  { fetch := FetchResult.ok (some "bad"), restartOk := true,
    postFetch := FetchResult.ok (some "good") }

/-- An iteration with a bad sample, a successful actuator call and a
post-restart health check that raises. -/
def iterBadPostErr : IterInput :=
  { fetch := FetchResult.ok (some "bad"), restartOk := true,
    postFetch := FetchResult.err }

/-- Watch configuration with a restart budget of one. -/
def cfgMaxOne : WatchConfig :=
  { interval := 300, failInterval := 30, failCount := 3, restartWait := 180,
    restartOnFail := true, maxRestarts := 1 }

/-- Watch configuration with restart-on-fail disabled. -/
def cfgNoRestart : WatchConfig :=
  { interval := 300, failInterval := 30, failCount := 3, restartWait := 180,
    restartOnFail := false, maxRestarts := 10 }

/-- A concrete manager state with no Credential and a token file holding
credFresh. -/
def stateTokenFileOnly : AuthState :=
  { credentials := none, tokenFile := some credFresh }

/- ===================== Claim theorems ===================== -/

/-- C6: in the watch loop, an iteration whose health fetch raises a
StreamToolsError leaves the consecutive-failure counter (and the whole
state) unchanged, sends no notification, invokes no restart, does not
exit, and sleeps the fail interval before retrying. -/
theorem watch_fetch_error_is_neutral (cfg : WatchConfig) (s : WatchState)
    (i : IterInput) (hf : i.fetch = FetchResult.err) :
    (watchStep cfg s i).state = s
    ∧ (watchStep cfg s i).notifs = []
    ∧ (watchStep cfg s i).restartCalls = 0
    ∧ (watchStep cfg s i).sleeps = [cfg.failInterval]
    ∧ (watchStep cfg s i).exited = false := by
  simp [watchStep, hf]

/-- Witness for C6 at a concrete configuration and state. -/
theorem watch_fetch_error_is_neutral_witness :
    (watchStep cfgDefault ⟨2, 1, true⟩ ⟨FetchResult.err, true, FetchResult.err⟩).state
        = ⟨2, 1, true⟩
    ∧ (watchStep cfgDefault ⟨2, 1, true⟩ ⟨FetchResult.err, true, FetchResult.err⟩).notifs = []
    ∧ (watchStep cfgDefault ⟨2, 1, true⟩ ⟨FetchResult.err, true, FetchResult.err⟩).restartCalls = 0
    ∧ (watchStep cfgDefault ⟨2, 1, true⟩ ⟨FetchResult.err, true, FetchResult.err⟩).sleeps = [30]
    ∧ (watchStep cfgDefault ⟨2, 1, true⟩ ⟨FetchResult.err, true, FetchResult.err⟩).exited = false :=
  watch_fetch_error_is_neutral cfgDefault ⟨2, 1, true⟩ ⟨FetchResult.err, true, FetchResult.err⟩ rfl

/-- C4 counterexample: at a concrete state holding an expired Credential
with no refresh token, refresh_if_needed raises nothing and leaves the
state untouched, contradicting the claim that it raises an
authentication failure in this situation. -/
theorem refresh_expired_no_rt_does_not_raise :
    stateExpiredNoRt.credentials = some credExpiredNoRt
    ∧ credExpiredNoRt.expired = true
    ∧ credExpiredNoRt.refreshToken = none
    ∧ (refresh_if_needed envNoRefresh stateExpiredNoRt).err = none
    ∧ (refresh_if_needed envNoRefresh stateExpiredNoRt).state = stateExpiredNoRt := by
  refine ⟨rfl, rfl, rfl, ?_, ?_⟩ <;> rfl

/-- C4 amended: for every state holding an expired Credential with no
refresh token, refresh_if_needed is a no-op: it raises nothing and leaves
the expired Credential installed unchanged. -/
theorem refresh_expired_no_rt_noop (env : AuthEnv) (s : AuthState) (c : Credential)
    (hc : s.credentials = some c) (_he : c.expired = true) (hr : c.refreshToken = none) :
    (refresh_if_needed env s).err = none
    ∧ (refresh_if_needed env s).state = s := by
  simp [refresh_if_needed, hc, hr, optTruthy]

/-- Witness for the amended C4 at a concrete state. -/
theorem refresh_expired_no_rt_noop_witness :
    (refresh_if_needed envAllSet ⟨some credExpiredNoRt, some credFresh⟩).err = none
    ∧ (refresh_if_needed envAllSet ⟨some credExpiredNoRt, some credFresh⟩).state
        = ⟨some credExpiredNoRt, some credFresh⟩ :=
  refresh_expired_no_rt_noop envAllSet ⟨some credExpiredNoRt, some credFresh⟩
    credExpiredNoRt rfl rfl rfl

/-- C5 counterexample: a call to refresh_if_needed after which the
manager still holds an installed, expired Credential (the expired,
refresh-token-free case performs no exchange and clears nothing),
contradicting the claim that after any call no expired-but-installed
Credential remains. -/
theorem refresh_can_leave_expired_installed :
    (refresh_if_needed envNoRefresh stateExpiredNoRt).state.credentials
        = some credExpiredNoRt
    ∧ credExpiredNoRt.expired = true
    ∧ (refresh_if_needed envNoRefresh stateExpiredNoRt).err = none := by
  refine ⟨?_, rfl, ?_⟩ <;> rfl

/-- C5 amended: whenever the refresh-token exchange performed by
refresh_if_needed fails for any reason, the current Credential is cleared
to none and an AuthenticationError wrapping the cause is raised, the
token file being untouched; hence after any call in which an exchange was
attempted and failed the manager holds no Credential at all. (When no
exchange is attempted, an expired Credential without refresh token stays
installed.) -/
theorem refresh_exchange_failure_clears (env : AuthEnv) (s : AuthState)
    (c : Credential) (msg : String)
    (hc : s.credentials = some c) (he : c.expired = true)
    (hr : optTruthy c.refreshToken = true)
    (hx : env.refreshOutcome c = Except.error msg) :
    (refresh_if_needed env s).err
        = some (AuthErr.authError ("Failed to refresh token: " ++ msg))
    ∧ (refresh_if_needed env s).state.credentials = none
    ∧ (refresh_if_needed env s).state.tokenFile = s.tokenFile := by
  simp [refresh_if_needed, hc, he, hr, hx]

/-- Witness for the amended C5 at a concrete failing exchange. -/
theorem refresh_exchange_failure_clears_witness :
    (refresh_if_needed envNoRefresh ⟨some credExpiredRt, some credFresh⟩).err
        = some (AuthErr.authError ("Failed to refresh token: " ++ "network unreachable"))
    ∧ (refresh_if_needed envNoRefresh ⟨some credExpiredRt, some credFresh⟩).state.credentials
        = none
    ∧ (refresh_if_needed envNoRefresh ⟨some credExpiredRt, some credFresh⟩).state.tokenFile
        = some credFresh :=
  refresh_exchange_failure_clears envNoRefresh ⟨some credExpiredRt, some credFresh⟩
    credExpiredRt "network unreachable" rfl rfl rfl rfl

/-- Helper: refresh_if_needed never touches the token file. -/
theorem refresh_if_needed_tokenFile (env : AuthEnv) (s : AuthState) :
    (refresh_if_needed env s).state.tokenFile = s.tokenFile := by
  cases hc : s.credentials with
  | none => simp [refresh_if_needed, hc]
  | some cred =>
      by_cases h : cred.expired = true ∧ optTruthy cred.refreshToken = true
      · cases hr : env.refreshOutcome cred <;> simp [refresh_if_needed, hc, h, hr]
      · simp [refresh_if_needed, hc, h]

/-- Helper: a successful refresh_if_needed keeps a Credential installed. -/
theorem refresh_if_needed_keeps_installed (env : AuthEnv) (s : AuthState)
    (hc : s.credentials.isSome = true)
    (hok : (refresh_if_needed env s).err = none) :
    (refresh_if_needed env s).state.credentials.isSome = true := by
  cases hcc : s.credentials with
  | none => rw [hcc] at hc; simp at hc
  | some cred =>
      by_cases h : cred.expired = true ∧ optTruthy cred.refreshToken = true
      · cases hr : env.refreshOutcome cred with
        | ok cred2 => simp [refresh_if_needed, hcc, h, hr]
        | error msg => simp [refresh_if_needed, hcc, h, hr] at hok
      · simp [refresh_if_needed, hcc, h]

/-- Helper: save_credentials with a Credential installed copies it to the
token file and leaves the Credential slot unchanged. -/
theorem save_credentials_installed (s : AuthState)
    (hc : s.credentials.isSome = true) :
    (save_credentials s).tokenFile = s.credentials
    ∧ (save_credentials s).credentials = s.credentials := by
  cases hcc : s.credentials with
  | none => rw [hcc] at hc; simp at hc
  | some cred => simp [save_credentials, hcc]

/-- Helper: the refresh-then-save tail shared by the TOKEN_FILE and
token-argument paths ends with the token file holding the installed
Credential. -/
theorem refresh_then_save_ok (env : AuthEnv) (s1 : AuthState)
    (hc : s1.credentials.isSome = true)
    (hok : (refresh_if_needed env s1).err = none) :
    (save_credentials (refresh_if_needed env s1).state).tokenFile
        = (save_credentials (refresh_if_needed env s1).state).credentials
    ∧ (save_credentials (refresh_if_needed env s1).state).credentials.isSome = true := by
  have hin := refresh_if_needed_keeps_installed env s1 hc hok
  have hsv := save_credentials_installed _ hin
  exact ⟨hsv.1.trans hsv.2.symm, by rw [hsv.2]; exact hin⟩

/-- C7: a successful ENVIRONMENT authentication leaves the token file
unchanged, while each of the other successful authentication paths
(TOKEN_FILE, INTERACTIVE, authenticate_with_token) ends with the token
file holding exactly the installed Credential. -/
theorem auth_env_does_not_write_token_file (env : AuthEnv) (s : AuthState)
    (hvars : envVarsSet env = true)
    (_hok : (authenticate_from_env env s).err = none) :
    (authenticate_from_env env s).state.tokenFile = s.tokenFile
    ∧ ((authenticate_from_token_file env s).err = none →
        (authenticate_from_token_file env s).state.tokenFile
          = (authenticate_from_token_file env s).state.credentials
        ∧ (authenticate_from_token_file env s).state.credentials.isSome = true)
    ∧ ((authenticate_interactive env s false).err = none →
        (authenticate_interactive env s false).state.tokenFile
          = (authenticate_interactive env s false).state.credentials
        ∧ (authenticate_interactive env s false).state.credentials.isSome = true)
    ∧ (∀ (rt : String) (cid csec : Option String),
        (authenticate_with_token env s rt cid csec).err = none →
        (authenticate_with_token env s rt cid csec).state.tokenFile
          = (authenticate_with_token env s rt cid csec).state.credentials
        ∧ (authenticate_with_token env s rt cid csec).state.credentials.isSome = true) := by
  refine ⟨?_, ?_, ?_, ?_⟩
  · simp only [authenticate_from_env, hvars, if_true]
    exact refresh_if_needed_tokenFile env _
  · intro h2
    cases htf : s.tokenFile with
    | none => simp [authenticate_from_token_file, htf] at h2
    | some cred =>
        cases hre : (refresh_if_needed env ⟨some cred, some cred⟩).err with
        | some e => simp [authenticate_from_token_file, htf, hre] at h2
        | none =>
            have h := refresh_then_save_ok env ⟨some cred, some cred⟩ (by simp) hre
            simpa [authenticate_from_token_file, htf, hre] using h
  · intro h3
    cases hcs : env.clientSecretFile with
    | none => simp [authenticate_interactive, hcs] at h3
    | some f =>
        cases hio : env.interactiveOutcome false with
        | error e => simp [authenticate_interactive, hcs, hio] at h3
        | ok cred =>
            have hsv := save_credentials_installed
              { s with credentials := some cred } (by simp)
            have hgoal := And.intro (hsv.1.trans hsv.2.symm)
              (by rw [hsv.2]; simp :
                (save_credentials
                  { s with credentials := some cred }).credentials.isSome = true)
            simpa [authenticate_interactive, hcs, hio] using hgoal
  · intro rt cid csec h4
    cases hid : (if optTruthy cid = true ∧ optTruthy csec = true then
        Except.ok (cid.getD "", csec.getD "")
      else read_client_secret_file env : Except AuthErr (String × String)) with
    | error e => simp [authenticate_with_token, hid] at h4
    | ok p =>
        obtain ⟨id2, sec2⟩ := p
        cases hre : (refresh_if_needed env
            ⟨some (Credential.mk none (some rt) "https://oauth2.googleapis.com/token"
              id2 sec2 env.scopes true), s.tokenFile⟩).err with
        | some e => simp [authenticate_with_token, hid, hre] at h4
        | none =>
            have h := refresh_then_save_ok env
              ⟨some (Credential.mk none (some rt) "https://oauth2.googleapis.com/token"
                id2 sec2 env.scopes true), s.tokenFile⟩ (by simp) hre
            simpa [authenticate_with_token, hid, hre] using h

/-- Witness for C7 at a concrete environment and state where all four
paths succeed. -/
theorem auth_env_does_not_write_token_file_witness :
    (authenticate_from_env envAllSet stateTokenFileOnly).state.tokenFile
        = stateTokenFileOnly.tokenFile
    ∧ ((authenticate_from_token_file envAllSet stateTokenFileOnly).state.tokenFile
          = (authenticate_from_token_file envAllSet stateTokenFileOnly).state.credentials
        ∧ (authenticate_from_token_file envAllSet
            stateTokenFileOnly).state.credentials.isSome = true)
    ∧ ((authenticate_interactive envAllSet stateTokenFileOnly false).state.tokenFile
          = (authenticate_interactive envAllSet stateTokenFileOnly false).state.credentials
        ∧ (authenticate_interactive envAllSet
            stateTokenFileOnly false).state.credentials.isSome = true)
    ∧ ((authenticate_with_token envAllSet stateTokenFileOnly "rt" none none).state.tokenFile
          = (authenticate_with_token envAllSet stateTokenFileOnly "rt" none none).state.credentials
        ∧ (authenticate_with_token envAllSet
            stateTokenFileOnly "rt" none none).state.credentials.isSome = true) := by
  have h := auth_env_does_not_write_token_file envAllSet stateTokenFileOnly rfl rfl
  exact ⟨h.1, h.2.1 rfl, h.2.2.1 rfl, h.2.2.2 "rt" none none rfl⟩

/-- C1: auto_authenticate tries ENVIRONMENT, TOKEN_FILE and INTERACTIVE
in that fixed order, returns the first method that succeeds, swallows an
AuthenticationError raised by ENVIRONMENT or TOKEN_FILE, and propagates a
failure of INTERACTIVE to the caller. -/
theorem auto_authenticate_priority_chain (env : AuthEnv) (s : AuthState) :
    ((authenticate_from_env env s).err = none →
      auto_authenticate env s
        = (Except.ok AuthMethod.ENVIRONMENT, (authenticate_from_env env s).state))
    ∧ (∀ m1, (authenticate_from_env env s).err = some (AuthErr.authError m1) →
        ((authenticate_from_token_file env (authenticate_from_env env s).state).err
            = none →
          auto_authenticate env s
            = (Except.ok AuthMethod.TOKEN_FILE,
               (authenticate_from_token_file env
                 (authenticate_from_env env s).state).state))
        ∧ (∀ m2, (authenticate_from_token_file env
              (authenticate_from_env env s).state).err
                = some (AuthErr.authError m2) →
            ((authenticate_interactive env
                (authenticate_from_token_file env
                  (authenticate_from_env env s).state).state false).err = none →
              auto_authenticate env s
                = (Except.ok AuthMethod.INTERACTIVE,
                   (authenticate_interactive env
                     (authenticate_from_token_file env
                       (authenticate_from_env env s).state).state false).state))
            ∧ (∀ e, (authenticate_interactive env
                  (authenticate_from_token_file env
                    (authenticate_from_env env s).state).state false).err = some e →
                auto_authenticate env s
                  = (Except.error e,
                     (authenticate_interactive env
                       (authenticate_from_token_file env
                         (authenticate_from_env env s).state).state false).state)))) := by
  refine ⟨fun h1 => ?_, fun m1 h1 => ⟨fun h2 => ?_, fun m2 h2 => ⟨fun h3 => ?_, fun e h3 => ?_⟩⟩⟩
  · simp only [auto_authenticate]
    rw [h1]
  · simp only [auto_authenticate]
    rw [h1, h2]
  · simp only [auto_authenticate]
    rw [h1, h2, h3]
  · simp only [auto_authenticate]
    rw [h1, h2, h3]

/-- Witness for C1: with no environment variables and no token file but a
working interactive flow, auto_authenticate returns INTERACTIVE. -/
theorem auto_authenticate_priority_chain_witness :
    auto_authenticate envInterOnly ⟨none, none⟩
      = (Except.ok AuthMethod.INTERACTIVE,
         (authenticate_interactive envInterOnly
           (authenticate_from_token_file envInterOnly
             (authenticate_from_env envInterOnly ⟨none, none⟩).state).state false).state) :=
  (((auto_authenticate_priority_chain envInterOnly ⟨none, none⟩).2
      "Environment variables not set" rfl).2 "Token file not found" rfl).1 rfl

/-- Helper: one step on a healthy sample resets the failure counter and
the notified flag, sends nothing and sleeps the normal interval. -/
theorem watchStep_healthy (cfg : WatchConfig) (s : WatchState) (i : IterInput)
    (hs : Option String) (hf : i.fetch = FetchResult.ok hs)
    (hh : isHealthyStr (healthValue hs) = true) :
    watchStep cfg s i =
      { state := { s with consecutiveFailures := 0, notifiedFailure := false },
        restartCalls := 0, notifs := [], sleeps := [cfg.interval], exited := false } := by
  simp [watchStep, hf, hh]

/-- Helper: one step on an unhealthy sample that does not reach the
restart check increments the counter, fires the first-failure
notification exactly when the counter becomes 1 from an un-notified
state, and sleeps the fail interval. -/
theorem watchStep_unhealthy_no_restart (cfg : WatchConfig) (s : WatchState)
    (i : IterInput) (hs : Option String) (hf : i.fetch = FetchResult.ok hs)
    (hh : isHealthyStr (healthValue hs) = false)
    (hnr : ¬(cfg.restartOnFail = true ∧ cfg.failCount ≤ s.consecutiveFailures + 1)) :
    watchStep cfg s i =
      { state := ⟨s.consecutiveFailures + 1, s.totalRestarts,
                   (if s.consecutiveFailures + 1 = 1 ∧ s.notifiedFailure = false
                    then true else s.notifiedFailure)⟩,
        restartCalls := 0,
        notifs := (if s.consecutiveFailures + 1 = 1 ∧ s.notifiedFailure = false
                   then [NotifKind.failure] else []),
        sleeps := [cfg.failInterval], exited := false } := by
  simp [watchStep, hf, hh, hnr]

/-- Helper: one step on an unhealthy sample that reaches the restart
check with the budget already used up exits the loop without invoking the
actuator. -/
theorem watchStep_budget_exhausted (cfg : WatchConfig) (s : WatchState)
    (i : IterInput) (hs : Option String) (hf : i.fetch = FetchResult.ok hs)
    (hh : isHealthyStr (healthValue hs) = false)
    (hro : cfg.restartOnFail = true)
    (hcf : cfg.failCount ≤ s.consecutiveFailures + 1)
    (hb : cfg.maxRestarts ≤ s.totalRestarts) :
    watchStep cfg s i =
      { state := ⟨s.consecutiveFailures + 1, s.totalRestarts,
                   (if s.consecutiveFailures + 1 = 1 ∧ s.notifiedFailure = false
                    then true else s.notifiedFailure)⟩,
        restartCalls := 0,
        notifs := (if s.consecutiveFailures + 1 = 1 ∧ s.notifiedFailure = false
                   then [NotifKind.failure] else []) ++ [NotifKind.maxReached],
        sleeps := [], exited := true } := by
  simp [watchStep, hf, hh, hro, hcf, hb]

/-- Helper: restart reached with budget remaining, actuator raises: the
actuator was invoked, the committed state is kept (counter and flag as
incremented, no restart counted), and a restart-failed notification is
appended. -/
theorem watchStep_restart_deny (cfg : WatchConfig) (s : WatchState)
    (i : IterInput) (hs : Option String) (hf : i.fetch = FetchResult.ok hs)
    (hh : isHealthyStr (healthValue hs) = false)
    (hro : cfg.restartOnFail = true)
    (hcf : cfg.failCount ≤ s.consecutiveFailures + 1)
    (hb : s.totalRestarts < cfg.maxRestarts)
    (hok2 : i.restartOk = false) :
    watchStep cfg s i =
      { state := ⟨s.consecutiveFailures + 1, s.totalRestarts,
                   (if s.consecutiveFailures + 1 = 1 ∧ s.notifiedFailure = false
                    then true else s.notifiedFailure)⟩,
        restartCalls := 1,
        notifs := (if s.consecutiveFailures + 1 = 1 ∧ s.notifiedFailure = false
                   then [NotifKind.failure] else []) ++ [NotifKind.restartFailed],
        sleeps := [cfg.failInterval], exited := false } := by
  have hb2 : ¬ cfg.maxRestarts ≤ s.totalRestarts := by omega
  simp [watchStep, hf, hh, hro, hcf, hb2, hok2]

/-- Helper: restart succeeds and the post-restart health check raises:
the committed state (counter reset, restart counted, flag reset) is kept
and a restarted plus a restart-failed notification are sent, with the
grace sleep followed by the fail-interval sleep. -/
theorem watchStep_restart_ok_post_err (cfg : WatchConfig) (s : WatchState)
    (i : IterInput) (hs : Option String) (hf : i.fetch = FetchResult.ok hs)
    (hh : isHealthyStr (healthValue hs) = false)
    (hro : cfg.restartOnFail = true)
    (hcf : cfg.failCount ≤ s.consecutiveFailures + 1)
    (hb : s.totalRestarts < cfg.maxRestarts)
    (hok2 : i.restartOk = true) (hpf : i.postFetch = FetchResult.err) :
    watchStep cfg s i =
      { state := { consecutiveFailures := 0, totalRestarts := s.totalRestarts + 1,
                   notifiedFailure := false },
        restartCalls := 1,
        notifs := (if s.consecutiveFailures + 1 = 1 ∧ s.notifiedFailure = false
                   then [NotifKind.failure] else [])
                  ++ [NotifKind.restarted, NotifKind.restartFailed],
        sleeps := [cfg.restartWait, cfg.failInterval], exited := false } := by
  have hb2 : ¬ cfg.maxRestarts ≤ s.totalRestarts := by omega
  simp [watchStep, hf, hh, hro, hcf, hb2, hok2, hpf]

/-- Helper: restart succeeds and the post-restart check reads a healthy
sample: recovered notification after the restarted one. -/
theorem watchStep_restart_ok_post_healthy (cfg : WatchConfig) (s : WatchState)
    (i : IterInput) (hs hs2 : Option String) (hf : i.fetch = FetchResult.ok hs)
    (hh : isHealthyStr (healthValue hs) = false)
    (hro : cfg.restartOnFail = true)
    (hcf : cfg.failCount ≤ s.consecutiveFailures + 1)
    (hb : s.totalRestarts < cfg.maxRestarts)
    (hok2 : i.restartOk = true) (hpf : i.postFetch = FetchResult.ok hs2)
    (hh2 : isHealthyStr (healthValue hs2) = true) :
    watchStep cfg s i =
      { state := { consecutiveFailures := 0, totalRestarts := s.totalRestarts + 1,
                   notifiedFailure := false },
        restartCalls := 1,
        notifs := (if s.consecutiveFailures + 1 = 1 ∧ s.notifiedFailure = false
                   then [NotifKind.failure] else [])
                  ++ [NotifKind.restarted, NotifKind.recovered],
        sleeps := [cfg.restartWait], exited := false } := by
  have hb2 : ¬ cfg.maxRestarts ≤ s.totalRestarts := by omega
  simp [watchStep, hf, hh, hro, hcf, hb2, hok2, hpf, hh2]

/-- Helper: restart succeeds and the post-restart check reads an
unhealthy sample: only the restarted notification is sent. -/
theorem watchStep_restart_ok_post_unhealthy (cfg : WatchConfig) (s : WatchState)
    (i : IterInput) (hs hs2 : Option String) (hf : i.fetch = FetchResult.ok hs)
    (hh : isHealthyStr (healthValue hs) = false)
    (hro : cfg.restartOnFail = true)
    (hcf : cfg.failCount ≤ s.consecutiveFailures + 1)
    (hb : s.totalRestarts < cfg.maxRestarts)
    (hok2 : i.restartOk = true) (hpf : i.postFetch = FetchResult.ok hs2)
    (hh2 : isHealthyStr (healthValue hs2) = false) :
    watchStep cfg s i =
      { state := { consecutiveFailures := 0, totalRestarts := s.totalRestarts + 1,
                   notifiedFailure := false },
        restartCalls := 1,
        notifs := (if s.consecutiveFailures + 1 = 1 ∧ s.notifiedFailure = false
                   then [NotifKind.failure] else [])
                  ++ [NotifKind.restarted],
        sleeps := [cfg.restartWait], exited := false } := by
  have hb2 : ¬ cfg.maxRestarts ≤ s.totalRestarts := by omega
  simp [watchStep, hf, hh, hro, hcf, hb2, hok2, hpf, hh2]

/-- Helper: one step on an unhealthy sample that reaches the restart
check with budget remaining invokes the actuator exactly once, never
exits, and sends the first-failure notification only when the counter
just became 1 from an un-notified state. -/
theorem watchStep_restart_attempt (cfg : WatchConfig) (s : WatchState)
    (i : IterInput) (hs : Option String) (hf : i.fetch = FetchResult.ok hs)
    (hh : isHealthyStr (healthValue hs) = false)
    (hro : cfg.restartOnFail = true)
    (hcf : cfg.failCount ≤ s.consecutiveFailures + 1)
    (hb : s.totalRestarts < cfg.maxRestarts) :
    (watchStep cfg s i).restartCalls = 1
    ∧ (watchStep cfg s i).exited = false
    ∧ (watchStep cfg s i).notifs.count NotifKind.failure
        = (if s.consecutiveFailures + 1 = 1 ∧ s.notifiedFailure = false
           then 1 else 0) := by
  cases hok2 : i.restartOk with
  | false =>
      rw [watchStep_restart_deny cfg s i hs hf hh hro hcf hb hok2]
      refine ⟨rfl, rfl, ?_⟩
      by_cases hn : s.consecutiveFailures + 1 = 1 ∧ s.notifiedFailure = false
      · rw [if_pos hn, if_pos hn, if_pos hn]; rfl
      · rw [if_neg hn, if_neg hn, if_neg hn]; rfl
  | true =>
      cases hpf : i.postFetch with
      | err =>
          rw [watchStep_restart_ok_post_err cfg s i hs hf hh hro hcf hb hok2 hpf]
          refine ⟨rfl, rfl, ?_⟩
          by_cases hn : s.consecutiveFailures + 1 = 1 ∧ s.notifiedFailure = false
          · rw [if_pos hn, if_pos hn]; rfl
          · rw [if_neg hn, if_neg hn]; rfl
      | ok hs2 =>
          by_cases hh2 : isHealthyStr (healthValue hs2) = true
          · rw [watchStep_restart_ok_post_healthy cfg s i hs hs2 hf hh hro hcf hb
              hok2 hpf hh2]
            refine ⟨rfl, rfl, ?_⟩
            by_cases hn : s.consecutiveFailures + 1 = 1 ∧ s.notifiedFailure = false
            · rw [if_pos hn, if_pos hn]; rfl
            · rw [if_neg hn, if_neg hn]; rfl
          · rw [watchStep_restart_ok_post_unhealthy cfg s i hs hs2 hf hh hro hcf hb
              hok2 hpf (by simpa using hh2)]
            refine ⟨rfl, rfl, ?_⟩
            by_cases hn : s.consecutiveFailures + 1 = 1 ∧ s.notifiedFailure = false
            · rw [if_pos hn, if_pos hn]; rfl
            · rw [if_neg hn, if_neg hn]; rfl

/-- Helper: the total-restarts counter never decreases across one step. -/
theorem watchStep_totalRestarts_mono (cfg : WatchConfig) (s : WatchState)
    (i : IterInput) :
    s.totalRestarts ≤ (watchStep cfg s i).state.totalRestarts := by
  cases hf : i.fetch with
  | err => simp [watchStep, hf]
  | ok hs =>
      by_cases hh : isHealthyStr (healthValue hs) = true
      · simp [watchStep, hf, hh]
      · by_cases hA : cfg.restartOnFail = true ∧ cfg.failCount ≤ s.consecutiveFailures + 1
        · by_cases hB : cfg.maxRestarts ≤ s.totalRestarts
          · simp [watchStep, hf, hh, hA, hB]
          · cases hok2 : i.restartOk with
            | false => simp [watchStep, hf, hh, hA, hB, hok2]
            | true =>
                cases hpf : i.postFetch with
                | err => simp [watchStep, hf, hh, hA, hB, hok2, hpf]
                | ok hs2 =>
                    by_cases hh2 : isHealthyStr (healthValue hs2) = true <;>
                      simp [watchStep, hf, hh, hA, hB, hok2, hpf, hh2]
        · simp [watchStep, hf, hh, hA]

/-- Helper: the total-restarts counter never decreases across a run. -/
theorem watchRun_totalRestarts_mono (cfg : WatchConfig) :
    ∀ (inputs : List IterInput) (s : WatchState),
      s.totalRestarts ≤ (watchRun cfg s inputs).state.totalRestarts := by
  intro inputs
  induction inputs with
  | nil => intro s; simp [watchRun]
  | cons i rest ih =>
      intro s
      by_cases h : (watchStep cfg s i).exited = true
      · simp only [watchRun, h, if_true]
        exact watchStep_totalRestarts_mono cfg s i
      · simp only [watchRun, h, if_false]
        exact le_trans (watchStep_totalRestarts_mono cfg s i)
          (ih (watchStep cfg s i).state)

/-- Helper: with the restart flag off, one step never invokes the
actuator, never exits and never changes the total-restarts counter. -/
theorem watchStep_no_restart_flag (cfg : WatchConfig) (s : WatchState)
    (i : IterInput) (hro : cfg.restartOnFail = false) :
    (watchStep cfg s i).restartCalls = 0
    ∧ (watchStep cfg s i).exited = false
    ∧ (watchStep cfg s i).state.totalRestarts = s.totalRestarts := by
  cases hf : i.fetch with
  | err => simp [watchStep, hf]
  | ok hs =>
      by_cases hh : isHealthyStr (healthValue hs) = true <;>
        simp [watchStep, hf, hh, hro]

/-- Helper: with the restart flag off, a run never invokes the actuator,
never exits, and never changes the total-restarts counter. -/
theorem watchRun_no_restart_flag (cfg : WatchConfig)
    (hro : cfg.restartOnFail = false) :
    ∀ (inputs : List IterInput) (s : WatchState),
      (watchRun cfg s inputs).restartCalls = 0
      ∧ (watchRun cfg s inputs).exited = false
      ∧ (watchRun cfg s inputs).state.totalRestarts = s.totalRestarts := by
  intro inputs
  induction inputs with
  | nil => intro s; simp [watchRun]
  | cons i rest ih =>
      intro s
      have hstep := watchStep_no_restart_flag cfg s i hro
      have hrest := ih (watchStep cfg s i).state
      simp only [watchRun, hstep.2.1, if_false]
      refine ⟨?_, hrest.2.1, ?_⟩
      · simp [hstep.1, hrest.1]
      · simp [hrest.2.2, hstep.2.2]

/-- Helper: with the restart flag off, n consecutive bad samples advance
the consecutive-failure counter by exactly n. -/
theorem watchRun_replicate_bad (cfg : WatchConfig)
    (hro : cfg.restartOnFail = false) :
    ∀ (n : Nat) (s : WatchState),
      (watchRun cfg s (List.replicate n iterBad)).state.consecutiveFailures
        = s.consecutiveFailures + n := by
  intro n
  induction n with
  | zero => intro s; simp [watchRun]
  | succ m ih =>
      intro s
      have hstep := watchStep_unhealthy_no_restart cfg s iterBad (some "bad") rfl rfl
        (by simp [hro])
      have hrest := ih (watchStep cfg s iterBad).state
      rw [hstep] at hrest
      simp only [List.replicate_succ, watchRun, hstep]
      simp at hrest ⊢
      omega

/-- C2: with fail_count 3 and restart enabled, starting from a healthy
state (failure counter 0, notified flag clear, budget not exhausted),
three consecutive bad samples invoke the restart actuator exactly once,
on the third sample, and send the failure notification exactly once, on
the first sample. -/
theorem watch_three_bad_samples_one_restart (cfg : WatchConfig) (t : Nat)
    (i1 i2 i3 : IterInput)
    (hfc : cfg.failCount = 3) (hro : cfg.restartOnFail = true)
    (ht : t < cfg.maxRestarts)
    (h1 : i1.fetch = FetchResult.ok (some "bad"))
    (h2 : i2.fetch = FetchResult.ok (some "bad"))
    (h3 : i3.fetch = FetchResult.ok (some "bad")) :
    (watchStep cfg ⟨0, t, false⟩ i1).restartCalls = 0
    ∧ (watchStep cfg ⟨0, t, false⟩ i1).notifs.count NotifKind.failure = 1
    ∧ (watchStep cfg (watchStep cfg ⟨0, t, false⟩ i1).state i2).restartCalls = 0
    ∧ (watchStep cfg (watchStep cfg ⟨0, t, false⟩ i1).state i2).notifs.count
        NotifKind.failure = 0
    ∧ (watchStep cfg (watchStep cfg (watchStep cfg ⟨0, t, false⟩ i1).state i2).state
        i3).restartCalls = 1
    ∧ (watchStep cfg (watchStep cfg (watchStep cfg ⟨0, t, false⟩ i1).state i2).state
        i3).notifs.count NotifKind.failure = 0
    ∧ (watchRun cfg ⟨0, t, false⟩ [i1, i2, i3]).restartCalls = 1
    ∧ (watchRun cfg ⟨0, t, false⟩ [i1, i2, i3]).notifs.count NotifKind.failure = 1 := by
  have hbad : isHealthyStr (healthValue (some "bad")) = false := rfl
  have e1 : watchStep cfg ⟨0, t, false⟩ i1
      = ⟨⟨1, t, true⟩, 0, [NotifKind.failure], [cfg.failInterval], false⟩ := by
    rw [watchStep_unhealthy_no_restart cfg ⟨0, t, false⟩ i1 (some "bad") h1 hbad
      (by simp [hfc])]
    simp
  have e2 : watchStep cfg ⟨1, t, true⟩ i2
      = ⟨⟨2, t, true⟩, 0, [], [cfg.failInterval], false⟩ := by
    rw [watchStep_unhealthy_no_restart cfg ⟨1, t, true⟩ i2 (some "bad") h2 hbad
      (by simp [hfc])]
    simp
  have s1 : (watchStep cfg ⟨0, t, false⟩ i1).state = ⟨1, t, true⟩ := by rw [e1]
  have s2 : (watchStep cfg ⟨1, t, true⟩ i2).state = ⟨2, t, true⟩ := by rw [e2]
  have h5 := watchStep_restart_attempt cfg ⟨2, t, true⟩ i3 (some "bad") h3 hbad hro
    (by simp [hfc]) ht
  have c5 : (watchStep cfg ⟨2, t, true⟩ i3).notifs.count NotifKind.failure = 0 := by
    rw [h5.2.2]; simp
  have cf1 : List.count NotifKind.failure [NotifKind.failure] = 1 := rfl
  refine ⟨?_, ?_, ?_, ?_, ?_, ?_, ?_, ?_⟩
  · rw [e1]
  · rw [e1]; rfl
  · rw [s1, e2]
  · rw [s1, e2]; rfl
  · rw [s1, s2]; exact h5.1
  · rw [s1, s2]; exact c5
  · simp [watchRun, e1, e2, h5.1, h5.2.1]
  · have hbeq : (NotifKind.failure == NotifKind.failure) = true := rfl
    simp [watchRun, e1, e2, h5.2.1, c5, cf1, List.count_append, List.count_cons, hbeq]

/-- Witness for C2 at the default configuration from a fresh state. -/
theorem watch_three_bad_samples_one_restart_witness :
    (watchStep cfgDefault ⟨0, 0, false⟩ iterBad).restartCalls = 0
    ∧ (watchStep cfgDefault ⟨0, 0, false⟩ iterBad).notifs.count NotifKind.failure = 1
    ∧ (watchStep cfgDefault (watchStep cfgDefault ⟨0, 0, false⟩ iterBad).state
        iterBad).restartCalls = 0
    ∧ (watchStep cfgDefault (watchStep cfgDefault ⟨0, 0, false⟩ iterBad).state
        iterBad).notifs.count NotifKind.failure = 0
    ∧ (watchStep cfgDefault (watchStep cfgDefault (watchStep cfgDefault ⟨0, 0, false⟩
        iterBad).state iterBad).state iterBad).restartCalls = 1
    ∧ (watchStep cfgDefault (watchStep cfgDefault (watchStep cfgDefault ⟨0, 0, false⟩
        iterBad).state iterBad).state iterBad).notifs.count NotifKind.failure = 0
    ∧ (watchRun cfgDefault ⟨0, 0, false⟩ [iterBad, iterBad, iterBad]).restartCalls = 1
    ∧ (watchRun cfgDefault ⟨0, 0, false⟩
        [iterBad, iterBad, iterBad]).notifs.count NotifKind.failure = 1 :=
  watch_three_bad_samples_one_restart cfgDefault 0 iterBad iterBad iterBad
    rfl rfl (by decide) rfl rfl rfl

/-- C3: the total-restarts counter never decreases over any run, and an
escalation to the failure threshold that finds the budget already used up
terminates the loop (non-zero exit) with the final notification and
without invoking the restart actuator. -/
theorem watch_restart_budget_is_terminal (cfg : WatchConfig) (s : WatchState)
    (inputs : List IterInput) (i : IterInput) (hs : Option String)
    (hro : cfg.restartOnFail = true) (hf : i.fetch = FetchResult.ok hs)
    (hh : isHealthyStr (healthValue hs) = false)
    (hcf : cfg.failCount ≤ s.consecutiveFailures + 1)
    (hb : cfg.maxRestarts ≤ s.totalRestarts) :
    s.totalRestarts ≤ (watchRun cfg s inputs).state.totalRestarts
    ∧ (watchStep cfg s i).exited = true
    ∧ (watchStep cfg s i).restartCalls = 0
    ∧ (watchStep cfg s i).notifs.count NotifKind.maxReached = 1 := by
  have he := watchStep_budget_exhausted cfg s i hs hf hh hro hcf hb
  refine ⟨watchRun_totalRestarts_mono cfg inputs s, ?_, ?_, ?_⟩
  · rw [he]
  · rw [he]
  · rw [he]
    by_cases hn : s.consecutiveFailures + 1 = 1 ∧ s.notifiedFailure = false
    · rw [if_pos hn, if_pos hn]; rfl
    · rw [if_neg hn, if_neg hn]; rfl

/-- Witness for C3: budget of one, already used up, counter at the
threshold. -/
theorem watch_restart_budget_is_terminal_witness :
    (WatchState.mk 2 1 true).totalRestarts
        ≤ (watchRun cfgMaxOne ⟨2, 1, true⟩ [iterBad]).state.totalRestarts
    ∧ (watchStep cfgMaxOne ⟨2, 1, true⟩ iterBad).exited = true
    ∧ (watchStep cfgMaxOne ⟨2, 1, true⟩ iterBad).restartCalls = 0
    ∧ (watchStep cfgMaxOne ⟨2, 1, true⟩ iterBad).notifs.count NotifKind.maxReached = 1 :=
  watch_restart_budget_is_terminal cfgMaxOne ⟨2, 1, true⟩ [iterBad] iterBad
    (some "bad") rfl rfl rfl (by decide) (by decide)

/-- C8: a fetched sample is classified healthy exactly when its health
value is good or ok, a missing health status is reported as noData, any
other value increments the consecutive-failure counter, and the
incremented counter is what reaches the restart trigger. -/
theorem watch_health_classification (cfg : WatchConfig) (s : WatchState)
    (i : IterInput) (hs : Option String) (hf : i.fetch = FetchResult.ok hs) :
    healthValue none = "noData"
    ∧ (isHealthyStr (healthValue hs) = true ↔
        (healthValue hs = "good" ∨ healthValue hs = "ok"))
    ∧ (isHealthyStr (healthValue hs) = true →
        (watchStep cfg s i).state.consecutiveFailures = 0)
    ∧ (isHealthyStr (healthValue hs) = false →
        ¬(cfg.restartOnFail = true ∧ cfg.failCount ≤ s.consecutiveFailures + 1) →
        (watchStep cfg s i).state.consecutiveFailures = s.consecutiveFailures + 1)
    ∧ (isHealthyStr (healthValue hs) = false →
        cfg.restartOnFail = true → cfg.failCount ≤ s.consecutiveFailures + 1 →
        s.totalRestarts < cfg.maxRestarts →
        (watchStep cfg s i).restartCalls = 1) := by
  refine ⟨rfl, ?_, ?_, ?_, ?_⟩
  · simp [isHealthyStr]
  · intro hh
    rw [watchStep_healthy cfg s i hs hf hh]
  · intro hh hnr
    rw [watchStep_unhealthy_no_restart cfg s i hs hf hh hnr]
  · intro hh hro hcf hb
    exact (watchStep_restart_attempt cfg s i hs hf hh hro hcf hb).1

/-- Witness for C8 at one healthy and two unhealthy concrete samples. -/
theorem watch_health_classification_witness :
    healthValue none = "noData"
    ∧ isHealthyStr (healthValue (some "good")) = true
    ∧ (watchStep cfgDefault ⟨0, 0, false⟩
        ⟨FetchResult.ok (some "good"), true, FetchResult.err⟩).state.consecutiveFailures
        = 0
    ∧ (watchStep cfgDefault ⟨0, 0, false⟩ iterBad).state.consecutiveFailures = 0 + 1
    ∧ (watchStep cfgDefault ⟨2, 0, false⟩ iterBad).restartCalls = 1 := by
  have hg := watch_health_classification cfgDefault ⟨0, 0, false⟩
    ⟨FetchResult.ok (some "good"), true, FetchResult.err⟩ (some "good") rfl
  have hb1 := watch_health_classification cfgDefault ⟨0, 0, false⟩ iterBad
    (some "bad") rfl
  have hb2 := watch_health_classification cfgDefault ⟨2, 0, false⟩ iterBad
    (some "bad") rfl
  exact ⟨hg.1, (hg.2.1).mpr (Or.inl rfl), hg.2.2.1 rfl,
    hb1.2.2.2.1 rfl (by decide), hb2.2.2.2.2 rfl rfl (by decide) (by decide)⟩

/-- C9: when the actuator call succeeds but the post-grace health check
raises, the same handler as for an actuator failure runs: a restart-failed
notification is sent after the restarted one, while the state already
committed before the grace sleep (counter reset, total-restarts
incremented, flag reset) is kept, the actuator having been invoked once
and the loop continuing. -/
theorem watch_post_restart_check_failure (cfg : WatchConfig) (s : WatchState)
    (i : IterInput) (hs : Option String) (hf : i.fetch = FetchResult.ok hs)
    (hh : isHealthyStr (healthValue hs) = false)
    (hro : cfg.restartOnFail = true)
    (hcf : cfg.failCount ≤ s.consecutiveFailures + 1)
    (hb : s.totalRestarts < cfg.maxRestarts)
    (hok2 : i.restartOk = true) (hpf : i.postFetch = FetchResult.err) :
    (watchStep cfg s i).notifs.count NotifKind.restarted = 1
    ∧ (watchStep cfg s i).notifs.count NotifKind.restartFailed = 1
    ∧ (watchStep cfg s i).state = ⟨0, s.totalRestarts + 1, false⟩
    ∧ (watchStep cfg s i).restartCalls = 1
    ∧ (watchStep cfg s i).exited = false
    ∧ (watchStep cfg s i).sleeps = [cfg.restartWait, cfg.failInterval] := by
  have he := watchStep_restart_ok_post_err cfg s i hs hf hh hro hcf hb hok2 hpf
  refine ⟨?_, ?_, ?_, ?_, ?_, ?_⟩ <;> rw [he]
  · by_cases hn : s.consecutiveFailures + 1 = 1 ∧ s.notifiedFailure = false
    · rw [if_pos hn]; rfl
    · rw [if_neg hn]; rfl
  · by_cases hn : s.consecutiveFailures + 1 = 1 ∧ s.notifiedFailure = false
    · rw [if_pos hn]; rfl
    · rw [if_neg hn]; rfl

/-- Witness for C9 at the default configuration. -/
theorem watch_post_restart_check_failure_witness :
    (watchStep cfgDefault ⟨2, 0, false⟩ iterBadPostErr).notifs.count
        NotifKind.restarted = 1
    ∧ (watchStep cfgDefault ⟨2, 0, false⟩ iterBadPostErr).notifs.count
        NotifKind.restartFailed = 1
    ∧ (watchStep cfgDefault ⟨2, 0, false⟩ iterBadPostErr).state = ⟨0, 0 + 1, false⟩
    ∧ (watchStep cfgDefault ⟨2, 0, false⟩ iterBadPostErr).restartCalls = 1
    ∧ (watchStep cfgDefault ⟨2, 0, false⟩ iterBadPostErr).exited = false
    ∧ (watchStep cfgDefault ⟨2, 0, false⟩ iterBadPostErr).sleeps
        = [cfgDefault.restartWait, cfgDefault.failInterval] :=
  watch_post_restart_check_failure cfgDefault ⟨2, 0, false⟩ iterBadPostErr
    (some "bad") rfl rfl rfl (by decide) (by decide) rfl rfl

/-- C10: with restart-on-fail off (including when forced off because the
actuator is unconfigured), no run ever invokes the actuator or exits via
the budget, each unhealthy sample increments the counter while the loop
sleeps the fail interval, and n consecutive bad samples push the counter
past any threshold without touching the restart total. -/
theorem watch_no_restart_mode (cfg : WatchConfig) (s : WatchState)
    (inputs : List IterInput) (i : IterInput) (n : Nat)
    (hro : cfg.restartOnFail = false)
    (hf : i.fetch = FetchResult.ok (some "bad")) :
    effectiveRestartOnFail true false = false
    ∧ (watchRun cfg s inputs).restartCalls = 0
    ∧ (watchRun cfg s inputs).exited = false
    ∧ (watchStep cfg s i).state.consecutiveFailures = s.consecutiveFailures + 1
    ∧ (watchStep cfg s i).sleeps = [cfg.failInterval]
    ∧ (watchRun cfg s (List.replicate n iterBad)).state.consecutiveFailures
        = s.consecutiveFailures + n
    ∧ (watchRun cfg s (List.replicate n iterBad)).state.totalRestarts
        = s.totalRestarts := by
  have hrun := watchRun_no_restart_flag cfg hro inputs s
  have hrep := watchRun_replicate_bad cfg hro n s
  have hstep := watchStep_unhealthy_no_restart cfg s i (some "bad") hf rfl
    (by simp [hro])
  refine ⟨rfl, hrun.1, hrun.2.1, ?_, ?_, hrep,
    (watchRun_no_restart_flag cfg hro (List.replicate n iterBad) s).2.2⟩
  · rw [hstep]
  · rw [hstep]

/-- Witness for C10 with five bad samples against a threshold of three. -/
theorem watch_no_restart_mode_witness :
    effectiveRestartOnFail true false = false
    ∧ (watchRun cfgNoRestart ⟨0, 0, false⟩ [iterBad]).restartCalls = 0
    ∧ (watchRun cfgNoRestart ⟨0, 0, false⟩ [iterBad]).exited = false
    ∧ (watchStep cfgNoRestart ⟨0, 0, false⟩ iterBad).state.consecutiveFailures = 0 + 1
    ∧ (watchStep cfgNoRestart ⟨0, 0, false⟩ iterBad).sleeps
        = [cfgNoRestart.failInterval]
    ∧ (watchRun cfgNoRestart ⟨0, 0, false⟩
        (List.replicate 5 iterBad)).state.consecutiveFailures = 0 + 5
    ∧ (watchRun cfgNoRestart ⟨0, 0, false⟩
        (List.replicate 5 iterBad)).state.totalRestarts = 0 :=
  watch_no_restart_mode cfgNoRestart ⟨0, 0, false⟩ [iterBad] iterBad 5 rfl rfl

end StreamTools
